import Mathlib

/-
Verification of `src/modules/streaming_pipeline/update_indexing_config.py`.

The script issues two remote calls against a Qdrant vector-database service
(update collection configuration, then get collection info) and logs the
resulting vector counts.  The remote service is modelled as an oracle: a pair
of functions giving the outcome (success value or raised exception, the latter
rendered as its message string) of each remote call.  Running the script
against an oracle yields the ordered list of remote calls issued, the ordered
list of log lines emitted, and the outcome of the Python function
(`Except.error e` models an exception `e` escaping the function; `Except.ok v`
models a normal return of value `v`, where the Python implicit `return None`
is modelled as `none`).
-/

/-- Mirrors `qdrant_client.http.models.OptimizersConfigDiff` as used by the
script: the two fields the script sets. -/
structure OptimizersConfigDiff where
  indexing_threshold : Nat
  max_optimization_threads : Nat
deriving DecidableEq

/-- Mirrors `qdrant_client.http.models.HnswConfigDiff` as used by the script:
the three fields the script sets. -/
structure HnswConfigDiff where
  max_indexing_threads : Nat
  m : Nat
  ef_construct : Nat
deriving DecidableEq

/-- The two fields of the collection-info response that the script reads
(`collection_info.indexed_vectors_count` and `collection_info.vectors_count`). -/
structure CollectionInfo where
  indexed_vectors_count : Nat
  vectors_count : Nat
deriving DecidableEq

/-- One remote call issued by the script, with its full payload. -/
inductive RemoteCall where
  | update_collection (collection_name : String)
      (optimizer_config : OptimizersConfigDiff) (hnsw_config : HnswConfigDiff)
  | get_collection (collection_name : String)
deriving DecidableEq

/-- Python `logging` levels used by the script. -/
inductive LogLevel where
  | info
  | error
deriving DecidableEq

/-- One emitted log line: its level and its formatted message. -/
structure LogLine where
  level : LogLevel
  msg : String
deriving DecidableEq

/-- The remote service as an oracle: the outcome of each remote call.
`Except.error e` models the call raising an exception whose message is `e`. -/
structure Service where
  update_collection : String → OptimizersConfigDiff → HnswConfigDiff → Except String Unit
  get_collection : String → Except String CollectionInfo

deriving instance DecidableEq for Except

/-- Everything observable about one run of `optimize_qdrant_collection`:
the remote calls issued in order, the log lines emitted in order, and the
outcome of the Python function. -/
structure RunResult where
  calls : List RemoteCall
  logs : List LogLine
  result : Except String (Option CollectionInfo)
deriving DecidableEq

/-- The literal `OptimizersConfigDiff(indexing_threshold=1000,
max_optimization_threads=2)` from the update call. -/
def the_optimizer_config : OptimizersConfigDiff :=
  { indexing_threshold := 1000, max_optimization_threads := 2 }

/-- The literal `HnswConfigDiff(max_indexing_threads=4, m=24,
ef_construct=200)` from the update call. -/
def the_hnsw_config : HnswConfigDiff :=
  { max_indexing_threads := 4, m := 24, ef_construct := 200 }

/-- Shallow embedding of `optimize_qdrant_collection(collection_name)`.
Inside one `try`, the script calls `client.update_collection(...)` with the
two literal config objects, then `client.get_collection(collection_name)`,
then logs three `logger.info` lines; the `except` clause logs one
`logger.error` line mentioning the collection name and the exception and
re-raises it.  The function has no `return` statement, so every normal exit
returns Python `None`, modelled as `Except.ok none`. -/
def optimize_qdrant_collection (svc : Service) (collection_name : String) : RunResult :=
  let upd := RemoteCall.update_collection collection_name the_optimizer_config the_hnsw_config
  match svc.update_collection collection_name the_optimizer_config the_hnsw_config with
  | Except.error e =>
      { calls := [upd]
        logs := [⟨LogLevel.error, "Error optimizing collection " ++ collection_name ++ ": " ++ e⟩]
        result := Except.error e }
  | Except.ok _ =>
      match svc.get_collection collection_name with
      | Except.error e =>
          { calls := [upd, RemoteCall.get_collection collection_name]
            logs := [⟨LogLevel.error,
                      "Error optimizing collection " ++ collection_name ++ ": " ++ e⟩]
            result := Except.error e }
      | Except.ok collection_info =>
          { calls := [upd, RemoteCall.get_collection collection_name]
            logs := [⟨LogLevel.info,
                      "Collection Optimization Results for \x27" ++ collection_name ++ "\x27:"⟩,
                     ⟨LogLevel.info,
                      "Indexed Vectors Count: " ++ toString collection_info.indexed_vectors_count⟩,
                     ⟨LogLevel.info,
                      "Total Vectors Count: " ++ toString collection_info.vectors_count⟩]
            result := Except.ok none }

/-- What one invocation of the script as a program observably does:
the remote calls, the full log, and the process exit status. -/
structure MainResult where
  calls : List RemoteCall
  logs : List LogLine
  exit_code : Nat
deriving DecidableEq

/-- Shallow embedding of `main()` (plus the `if __name__ == "__main__"` driver):
it calls `optimize_qdrant_collection("alpaca_financial_news")`; an escaping
exception is caught and logged (`"Optimization failed: ..."`) and not
re-raised, so the process terminates normally (exit status 0) on both paths.
(Named `main_run` because Lean reserves `main` for program entry points.) -/
def main_run (svc : Service) : MainResult :=
  let r := optimize_qdrant_collection svc "alpaca_financial_news"
  match r.result with
  | Except.ok _ => { calls := r.calls, logs := r.logs, exit_code := 0 }
  | Except.error e =>
      { calls := r.calls
        logs := r.logs ++ [⟨LogLevel.error, "Optimization failed: " ++ e⟩]
        exit_code := 0 }

/-- Whether a remote call is an update-collection call. -/
def isUpdateCall : RemoteCall → Bool
  | RemoteCall.update_collection _ _ _ => true
  | RemoteCall.get_collection _ => false

/-- Whether a log line is at info level. -/
def LogLine.isInfo : LogLine → Bool
  | ⟨LogLevel.info, _⟩ => true
  | ⟨LogLevel.error, _⟩ => false

/-- Whether a log line is at error level. -/
def LogLine.isErr : LogLine → Bool
  | ⟨LogLevel.info, _⟩ => false
  | ⟨LogLevel.error, _⟩ => true

/-- Whether the embedded Python function returned normally. -/
def runSucceeded (r : RunResult) : Bool :=
  match r.result with
  | Except.ok _ => true
  | Except.error _ => false

/-- `sub` occurs as a contiguous substring of `s`. -/
def containsStr (s sub : String) : Prop :=
  ∃ pre post, s = pre ++ sub ++ post

/-- The process environment variables the script reads. -/
structure Env where
  qdrant_url : Option String
  qdrant_api_key : Option String
deriving DecidableEq

/-- The credential environment variables are missing or empty. -/
def credsMissing (env : Env) : Prop :=
  env.qdrant_url = none ∨ env.qdrant_url = some "" ∨
    env.qdrant_api_key = none ∨ env.qdrant_api_key = some ""

/-- Modelled from the spec: the `QdrantClient` network client is an external
library, not code under `src/`.  Per the spec, missing or empty credential
environment variables make the first remote call fail at the
transport/authentication layer.  A client factory (mapping the environment the
client was built from to the behaviour of its remote calls) satisfies this
model when, under missing or empty credentials, every update call raises. -/
def failsOnMissingCreds (factory : Env → Service) : Prop :=
  ∀ env, credsMissing env →
    ∀ n c h, ∃ msg, (factory env).update_collection n c h = Except.error msg

/-- Mock service: the update call succeeds and the status read returns
`info`; used as the concrete mocked remote service of the spec. -/
def okService (info : CollectionInfo) : Service :=
  { update_collection := fun _ _ _ => Except.ok ()
    get_collection := fun _ => Except.ok info }

/-- Mock service whose update call raises `msg`. -/
def updateFailService (msg : String) : Service :=
  { update_collection := fun _ _ _ => Except.error msg
    get_collection := fun _ => Except.ok ⟨0, 0⟩ }

/-- Mock service whose update call succeeds and whose status read raises
`msg`. -/
def getFailService (msg : String) : Service :=
  { update_collection := fun _ _ _ => Except.ok ()
    get_collection := fun _ => Except.error msg }

theorem str_append_assoc (a b c : String) : a ++ b ++ c = a ++ (b ++ c) := by
  apply String.ext
  simp [String.data_append, List.append_assoc]

theorem optimize_eq_of_update_error (svc : Service) (name msg : String)
    (hu : svc.update_collection name the_optimizer_config the_hnsw_config = Except.error msg) :
    optimize_qdrant_collection svc name =
      { calls := [RemoteCall.update_collection name the_optimizer_config the_hnsw_config]
        logs := [⟨LogLevel.error, "Error optimizing collection " ++ name ++ ": " ++ msg⟩]
        result := Except.error msg } := by
  unfold optimize_qdrant_collection
  rw [hu]

theorem optimize_eq_of_get_error (svc : Service) (name msg : String)
    (hu : svc.update_collection name the_optimizer_config the_hnsw_config = Except.ok ())
    (hg : svc.get_collection name = Except.error msg) :
    optimize_qdrant_collection svc name =
      { calls := [RemoteCall.update_collection name the_optimizer_config the_hnsw_config,
                  RemoteCall.get_collection name]
        logs := [⟨LogLevel.error, "Error optimizing collection " ++ name ++ ": " ++ msg⟩]
        result := Except.error msg } := by
  unfold optimize_qdrant_collection
  rw [hu, hg]

theorem optimize_eq_of_ok (svc : Service) (name : String) (info : CollectionInfo)
    (hu : svc.update_collection name the_optimizer_config the_hnsw_config = Except.ok ())
    (hg : svc.get_collection name = Except.ok info) :
    optimize_qdrant_collection svc name =
      { calls := [RemoteCall.update_collection name the_optimizer_config the_hnsw_config,
                  RemoteCall.get_collection name]
        logs := [⟨LogLevel.info, "Collection Optimization Results for \x27" ++ name ++ "\x27:"⟩,
                 ⟨LogLevel.info, "Indexed Vectors Count: " ++ toString info.indexed_vectors_count⟩,
                 ⟨LogLevel.info, "Total Vectors Count: " ++ toString info.vectors_count⟩]
        result := Except.ok none } := by
  unfold optimize_qdrant_collection
  rw [hu, hg]

theorem optimize_cases (svc : Service) (name : String) :
    (∃ msg, svc.update_collection name the_optimizer_config the_hnsw_config = Except.error msg) ∨
    (svc.update_collection name the_optimizer_config the_hnsw_config = Except.ok () ∧
      ((∃ msg, svc.get_collection name = Except.error msg) ∨
        ∃ info, svc.get_collection name = Except.ok info)) := by
  cases hu : svc.update_collection name the_optimizer_config the_hnsw_config with
  | error e => exact Or.inl ⟨e, rfl⟩
  | ok u =>
    cases u
    cases hg : svc.get_collection name with
    | error e => exact Or.inr ⟨rfl, Or.inl ⟨e, rfl⟩⟩
    | ok info => exact Or.inr ⟨rfl, Or.inr ⟨info, rfl⟩⟩

theorem containsStr_of_middle (pre mid post : String) :
    containsStr (pre ++ mid ++ post) mid :=
  ⟨pre, post, rfl⟩

theorem error_line_contains_name (name msg : String) :
    containsStr ("Error optimizing collection " ++ name ++ ": " ++ msg) name := by
  refine ⟨"Error optimizing collection ", ": " ++ msg, ?_⟩
  rw [str_append_assoc ("Error optimizing collection " ++ name) ": " msg]

theorem error_line_contains_cause (name msg : String) :
    containsStr ("Error optimizing collection " ++ name ++ ": " ++ msg) msg := by
  refine ⟨"Error optimizing collection " ++ name ++ ": ", "", ?_⟩
  rw [String.append_empty]

theorem optimize_update_calls (svc : Service) (name : String) :
    (optimize_qdrant_collection svc name).calls.filter isUpdateCall =
      [RemoteCall.update_collection name the_optimizer_config the_hnsw_config] := by
  rcases optimize_cases svc name with ⟨e, hu⟩ | ⟨hu, ⟨e, hg⟩ | ⟨info, hg⟩⟩
  · rw [optimize_eq_of_update_error _ _ _ hu]; rfl
  · rw [optimize_eq_of_get_error _ _ _ hu hg]; rfl
  · rw [optimize_eq_of_ok _ _ _ hu hg]; rfl

/-- Claim C1: on a successful run, `optimize_qdrant_collection` issues exactly
one update-collection call carrying the literal parameter values
indexingThreshold=1000, maxOptimizationThreads=2, maxIndexingThreads=4, m=24,
efConstruct=200, followed by exactly one get-collection-info call, in that
order, with no other remote calls. -/
theorem c1_call_sequence (svc : Service) (name : String)
    (h : ∃ v, (optimize_qdrant_collection svc name).result = Except.ok v) :
    (optimize_qdrant_collection svc name).calls =
      [RemoteCall.update_collection name
         { indexing_threshold := 1000, max_optimization_threads := 2 }
         { max_indexing_threads := 4, m := 24, ef_construct := 200 },
       RemoteCall.get_collection name] := by
  obtain ⟨v, hv⟩ := h
  rcases optimize_cases svc name with ⟨e, hu⟩ | ⟨hu, ⟨e, hg⟩ | ⟨info, hg⟩⟩
  · rw [optimize_eq_of_update_error _ _ _ hu] at hv
    simp at hv
  · rw [optimize_eq_of_get_error _ _ _ hu hg] at hv
    simp at hv
  · rw [optimize_eq_of_ok _ _ _ hu hg]
    rfl

/-- Claim C1 witness: the call-sequence theorem applied to the mocked
service that succeeds with counts 500/1000. -/
theorem c1_call_sequence_witness :
    (optimize_qdrant_collection (okService ⟨500, 1000⟩) "alpaca_financial_news").calls =
      [RemoteCall.update_collection "alpaca_financial_news"
         { indexing_threshold := 1000, max_optimization_threads := 2 }
         { max_indexing_threads := 4, m := 24, ef_construct := 200 },
       RemoteCall.get_collection "alpaca_financial_news"] :=
  c1_call_sequence (okService ⟨500, 1000⟩) "alpaca_financial_news" ⟨none, rfl⟩

/-- Claim C2 counterexample: against the mocked remote service that reports
indexedVectorCount=500 and totalVectorCount=1000 after the update, the
function does not return the snapshot 500/1000 (it returns Python None,
modelled as `none`). -/
theorem c2_counterexample :
    (optimize_qdrant_collection (okService ⟨500, 1000⟩) "alpaca_financial_news").result ≠
      Except.ok (some ⟨500, 1000⟩) := by
  rw [optimize_eq_of_ok (okService ⟨500, 1000⟩) "alpaca_financial_news" ⟨500, 1000⟩ rfl rfl]
  simp

/-- Claim C2 (amended): on success `optimize_qdrant_collection` returns no
value (Python None); the post-update snapshot is only logged: two of the log
lines report the indexed and total vector counts verbatim. -/
theorem c2_returns_none_logs_counts (svc : Service) (name : String) (info : CollectionInfo)
    (hu : svc.update_collection name the_optimizer_config the_hnsw_config = Except.ok ())
    (hg : svc.get_collection name = Except.ok info) :
    (optimize_qdrant_collection svc name).result = Except.ok none ∧
    (optimize_qdrant_collection svc name).logs =
      [⟨LogLevel.info, "Collection Optimization Results for \x27" ++ name ++ "\x27:"⟩,
       ⟨LogLevel.info, "Indexed Vectors Count: " ++ toString info.indexed_vectors_count⟩,
       ⟨LogLevel.info, "Total Vectors Count: " ++ toString info.vectors_count⟩] := by
  rw [optimize_eq_of_ok svc name info hu hg]
  exact ⟨rfl, rfl⟩

/-- Claim C2 witness: with the mocked service reporting 500/1000, the
function returns None and the log lines carry "500" and "1000" verbatim. -/
theorem c2_returns_none_logs_counts_witness :
    (optimize_qdrant_collection (okService ⟨500, 1000⟩) "news").result = Except.ok none ∧
    (optimize_qdrant_collection (okService ⟨500, 1000⟩) "news").logs =
      [⟨LogLevel.info, "Collection Optimization Results for \x27news\x27:"⟩,
       ⟨LogLevel.info, "Indexed Vectors Count: 500"⟩,
       ⟨LogLevel.info, "Total Vectors Count: 1000"⟩] :=
  c2_returns_none_logs_counts (okService ⟨500, 1000⟩) "news" ⟨500, 1000⟩ rfl rfl

/-- Claim C3: if the update-collection call raises, no get-collection-info
call is made (the update call is the only remote call) and an error-level log
line containing the collection name is emitted. -/
theorem c3_update_failure (svc : Service) (name msg : String)
    (hu : svc.update_collection name the_optimizer_config the_hnsw_config = Except.error msg) :
    (optimize_qdrant_collection svc name).calls =
      [RemoteCall.update_collection name the_optimizer_config the_hnsw_config] ∧
    ∃ l ∈ (optimize_qdrant_collection svc name).logs,
      l.level = LogLevel.error ∧ containsStr l.msg name := by
  rw [optimize_eq_of_update_error svc name msg hu]
  exact ⟨rfl, ⟨LogLevel.error, "Error optimizing collection " ++ name ++ ": " ++ msg⟩,
    List.mem_singleton.2 rfl, rfl, error_line_contains_name name msg⟩

/-- Claim C3 witness: the update-failure theorem applied to a mock service
whose update call raises "boom". -/
theorem c3_update_failure_witness :
    (optimize_qdrant_collection (updateFailService "boom") "alpaca_financial_news").calls =
      [RemoteCall.update_collection "alpaca_financial_news"
        the_optimizer_config the_hnsw_config] ∧
    ∃ l ∈ (optimize_qdrant_collection (updateFailService "boom") "alpaca_financial_news").logs,
      l.level = LogLevel.error ∧ containsStr l.msg "alpaca_financial_news" :=
  c3_update_failure (updateFailService "boom") "alpaca_financial_news" "boom" rfl

/-- Claim C4: any exception raised by a remote call is caught, logged as
exactly one error-level line containing both the collection name and the
underlying cause, and re-raised unchanged to the caller (the propagated
failure carries the same cause; no distinct error kinds are introduced). -/
theorem c4_catch_log_reraise (svc : Service) (name msg : String)
    (h : (optimize_qdrant_collection svc name).result = Except.error msg) :
    (optimize_qdrant_collection svc name).logs =
      [⟨LogLevel.error, "Error optimizing collection " ++ name ++ ": " ++ msg⟩] ∧
    containsStr ("Error optimizing collection " ++ name ++ ": " ++ msg) name ∧
    containsStr ("Error optimizing collection " ++ name ++ ": " ++ msg) msg := by
  refine ⟨?_, error_line_contains_name name msg, error_line_contains_cause name msg⟩
  rcases optimize_cases svc name with ⟨e, hu⟩ | ⟨hu, ⟨e, hg⟩ | ⟨info, hg⟩⟩
  · rw [optimize_eq_of_update_error _ _ _ hu] at h ⊢
    injection h with h2
    rw [h2]
  · rw [optimize_eq_of_get_error _ _ _ hu hg] at h ⊢
    injection h with h2
    rw [h2]
  · rw [optimize_eq_of_ok _ _ _ hu hg] at h
    simp at h

/-- Claim C4 witness: the catch-log-reraise theorem applied to a mock service
whose status read raises "net down" after a successful update. -/
theorem c4_catch_log_reraise_witness :
    (optimize_qdrant_collection (getFailService "net down") "alpaca_financial_news").logs =
      [⟨LogLevel.error, "Error optimizing collection alpaca_financial_news: net down"⟩] ∧
    containsStr "Error optimizing collection alpaca_financial_news: net down"
      "alpaca_financial_news" ∧
    containsStr "Error optimizing collection alpaca_financial_news: net down" "net down" :=
  c4_catch_log_reraise (getFailService "net down") "alpaca_financial_news" "net down" rfl

/-- Claim C5: every failure propagated out of `optimize_qdrant_collection` is
caught by the top-level entry point, which logs a second error line and
suppresses further propagation, so the process exits with status 0. -/
theorem c5_top_level_swallow (svc : Service) (msg : String)
    (h : (optimize_qdrant_collection svc "alpaca_financial_news").result = Except.error msg) :
    (main_run svc).exit_code = 0 ∧
    (main_run svc).logs =
      (optimize_qdrant_collection svc "alpaca_financial_news").logs ++
        [⟨LogLevel.error, "Optimization failed: " ++ msg⟩] := by
  unfold main_run
  rcases optimize_cases svc "alpaca_financial_news" with ⟨e, hu⟩ | ⟨hu, ⟨e, hg⟩ | ⟨info, hg⟩⟩
  · rw [optimize_eq_of_update_error _ _ _ hu] at h ⊢
    injection h with h2
    subst h2
    exact ⟨rfl, rfl⟩
  · rw [optimize_eq_of_get_error _ _ _ hu hg] at h ⊢
    injection h with h2
    subst h2
    exact ⟨rfl, rfl⟩
  · rw [optimize_eq_of_ok _ _ _ hu hg] at h
    simp at h

/-- Claim C5 witness: the top-level-swallow theorem applied to a mock service
whose update call raises "boom". -/
theorem c5_top_level_swallow_witness :
    (main_run (updateFailService "boom")).exit_code = 0 ∧
    (main_run (updateFailService "boom")).logs =
      (optimize_qdrant_collection (updateFailService "boom") "alpaca_financial_news").logs ++
        [⟨LogLevel.error, "Optimization failed: boom"⟩] :=
  c5_top_level_swallow (updateFailService "boom") "boom" rfl

/-- Claim C6: if the status read fails after a successful update, an
error-level log line containing the collection name is emitted and no
compensating request follows: the run's remote calls are exactly the one
update call and the one get call, with exactly one update call overall (no
rollback of the already-applied configuration update). -/
theorem c6_get_failure_no_rollback (svc : Service) (name msg : String)
    (hu : svc.update_collection name the_optimizer_config the_hnsw_config = Except.ok ())
    (hg : svc.get_collection name = Except.error msg) :
    (optimize_qdrant_collection svc name).calls =
      [RemoteCall.update_collection name the_optimizer_config the_hnsw_config,
       RemoteCall.get_collection name] ∧
    ((optimize_qdrant_collection svc name).calls.filter isUpdateCall).length = 1 ∧
    ∃ l ∈ (optimize_qdrant_collection svc name).logs,
      l.level = LogLevel.error ∧ containsStr l.msg name := by
  rw [optimize_eq_of_get_error svc name msg hu hg]
  exact ⟨rfl, rfl, ⟨LogLevel.error, "Error optimizing collection " ++ name ++ ": " ++ msg⟩,
    List.mem_singleton.2 rfl, rfl, error_line_contains_name name msg⟩

/-- Claim C6 witness: the no-rollback theorem applied to a mock service whose
status read raises "timeout". -/
theorem c6_get_failure_no_rollback_witness :
    (optimize_qdrant_collection (getFailService "timeout") "alpaca_financial_news").calls =
      [RemoteCall.update_collection "alpaca_financial_news"
         the_optimizer_config the_hnsw_config,
       RemoteCall.get_collection "alpaca_financial_news"] ∧
    ((optimize_qdrant_collection (getFailService "timeout")
        "alpaca_financial_news").calls.filter isUpdateCall).length = 1 ∧
    ∃ l ∈ (optimize_qdrant_collection (getFailService "timeout")
        "alpaca_financial_news").logs,
      l.level = LogLevel.error ∧ containsStr l.msg "alpaca_financial_news" :=
  c6_get_failure_no_rollback (getFailService "timeout") "alpaca_financial_news" "timeout" rfl rfl

/-- Claim C7: two successive runs with the same collection name (against
possibly different service states) each issue exactly one successful update
call, and the two update calls carry identical configuration payloads (the
same five literal values), so the remote configuration converges to the same
end state. -/
theorem c7_identical_update_payloads (svc1 svc2 : Service) (name : String)
    (_h1 : svc1.update_collection name the_optimizer_config the_hnsw_config = Except.ok ())
    (_h2 : svc2.update_collection name the_optimizer_config the_hnsw_config = Except.ok ()) :
    (optimize_qdrant_collection svc1 name).calls.filter isUpdateCall =
      [RemoteCall.update_collection name
         { indexing_threshold := 1000, max_optimization_threads := 2 }
         { max_indexing_threads := 4, m := 24, ef_construct := 200 }] ∧
    (optimize_qdrant_collection svc1 name).calls.filter isUpdateCall =
      (optimize_qdrant_collection svc2 name).calls.filter isUpdateCall := by
  have k1 := optimize_update_calls svc1 name
  have k2 := optimize_update_calls svc2 name
  exact ⟨k1, k1.trans k2.symm⟩

/-- Claim C7 witness: the identical-payloads theorem applied to two mock
services that both accept the update. -/
theorem c7_identical_update_payloads_witness :
    (optimize_qdrant_collection (okService ⟨500, 1000⟩) "repeat").calls.filter isUpdateCall =
      [RemoteCall.update_collection "repeat"
         { indexing_threshold := 1000, max_optimization_threads := 2 }
         { max_indexing_threads := 4, m := 24, ef_construct := 200 }] ∧
    (optimize_qdrant_collection (okService ⟨500, 1000⟩) "repeat").calls.filter isUpdateCall =
      (optimize_qdrant_collection (okService ⟨600, 1100⟩) "repeat").calls.filter isUpdateCall :=
  c7_identical_update_payloads (okService ⟨500, 1000⟩) (okService ⟨600, 1100⟩) "repeat" rfl rfl

/-- Claim C8 counterexample: on a successful run against the mocked service
(counts 500/1000) the number of info-level log lines emitted by
`optimize_qdrant_collection` is not two — the script logs three info lines
(status header, indexed count, total count). -/
theorem c8_counterexample :
    ¬ (((optimize_qdrant_collection (okService ⟨500, 1000⟩)
          "alpaca_financial_news").logs.filter LogLine.isInfo).length = 2) := by
  rw [optimize_eq_of_ok (okService ⟨500, 1000⟩) "alpaca_financial_news" ⟨500, 1000⟩ rfl rfl]
  simp [LogLine.isInfo]

/-- Claim C8 (amended): on every successful run `optimize_qdrant_collection`
emits exactly three info-level log lines (status header, indexed vector
count, total vector count) and no error-level line; on every failing run it
emits exactly one error-level line and no info-level line. -/
theorem c8_log_counts (svc : Service) (name : String) :
    ((optimize_qdrant_collection svc name).logs.filter LogLine.isInfo).length =
      (if runSucceeded (optimize_qdrant_collection svc name) then 3 else 0) ∧
    ((optimize_qdrant_collection svc name).logs.filter LogLine.isErr).length =
      (if runSucceeded (optimize_qdrant_collection svc name) then 0 else 1) := by
  rcases optimize_cases svc name with ⟨e, hu⟩ | ⟨hu, ⟨e, hg⟩ | ⟨info, hg⟩⟩
  · rw [optimize_eq_of_update_error _ _ _ hu]
    exact ⟨rfl, rfl⟩
  · rw [optimize_eq_of_get_error _ _ _ hu hg]
    exact ⟨rfl, rfl⟩
  · rw [optimize_eq_of_ok _ _ _ hu hg]
    exact ⟨rfl, rfl⟩

/-- Claim C9: when the credential environment variables are missing or empty,
the update call fails at the transport/authentication layer (per the
spec-modelled behaviour of the external client library), the failure is
caught and logged with the collection name, no further remote call is made,
and the process still exits with status 0 (the top-level handler swallows
the re-raised failure). -/
theorem c9_missing_creds (factory : Env → Service) (env : Env)
    (hf : failsOnMissingCreds factory) (he : credsMissing env) :
    runSucceeded (optimize_qdrant_collection (factory env) "alpaca_financial_news") = false ∧
    (optimize_qdrant_collection (factory env) "alpaca_financial_news").calls =
      [RemoteCall.update_collection "alpaca_financial_news"
        the_optimizer_config the_hnsw_config] ∧
    (∃ l ∈ (optimize_qdrant_collection (factory env) "alpaca_financial_news").logs,
      l.level = LogLevel.error ∧ containsStr l.msg "alpaca_financial_news") ∧
    (main_run (factory env)).exit_code = 0 := by
  obtain ⟨msg, hu⟩ := hf env he "alpaca_financial_news" the_optimizer_config the_hnsw_config
  have heq := optimize_eq_of_update_error (factory env) "alpaca_financial_news" msg hu
  rw [heq]
  refine ⟨rfl, rfl,
    ⟨⟨LogLevel.error, "Error optimizing collection alpaca_financial_news: " ++ msg⟩,
      List.mem_singleton.2 rfl, rfl,
      error_line_contains_name "alpaca_financial_news" msg⟩, ?_⟩
  unfold main_run
  rw [heq]

/-- Claim C9 witness: the missing-credentials theorem applied to the empty
environment and a client factory whose update call always raises
"connection refused". -/
theorem c9_missing_creds_witness :
    runSucceeded (optimize_qdrant_collection
      ((fun _ => updateFailService "connection refused") (Env.mk none none))
      "alpaca_financial_news") = false ∧
    (optimize_qdrant_collection
      ((fun _ => updateFailService "connection refused") (Env.mk none none))
      "alpaca_financial_news").calls =
      [RemoteCall.update_collection "alpaca_financial_news"
        the_optimizer_config the_hnsw_config] ∧
    (∃ l ∈ (optimize_qdrant_collection
        ((fun _ => updateFailService "connection refused") (Env.mk none none))
        "alpaca_financial_news").logs,
      l.level = LogLevel.error ∧ containsStr l.msg "alpaca_financial_news") ∧
    (main_run ((fun _ => updateFailService "connection refused") (Env.mk none none))).exit_code
      = 0 :=
  c9_missing_creds (fun _ => updateFailService "connection refused") (Env.mk none none)
    (fun _ _ _ _ _ => ⟨"connection refused", rfl⟩) (Or.inl rfl)

/-- Claim C10: on every run `optimize_qdrant_collection` either returns
Python None (the vector counts are only logged, never returned) or raises;
a successful run never returns any other value. -/
theorem c10_returns_none (svc : Service) (name : String) :
    (optimize_qdrant_collection svc name).result = Except.ok none ∨
    ∃ e, (optimize_qdrant_collection svc name).result = Except.error e := by
  rcases optimize_cases svc name with ⟨e, hu⟩ | ⟨hu, ⟨e, hg⟩ | ⟨info, hg⟩⟩
  · rw [optimize_eq_of_update_error _ _ _ hu]
    exact Or.inr ⟨e, rfl⟩
  · rw [optimize_eq_of_get_error _ _ _ hu hg]
    exact Or.inr ⟨e, rfl⟩
  · rw [optimize_eq_of_ok _ _ _ hu hg]
    exact Or.inl rfl
